import Mathlib

/-!
Aurinko Auth Server — formal model.

Shallow embedding of `src/main.py` (a FastAPI micro-service implementing a
2-hop OAuth flow with Aurinko).  External collaborators (the Redis store,
the Aurinko token endpoint, the optional webhook) are modelled as explicit
parameters: the store is an association list of keys to stored values with
optional TTLs, plus an availability flag (a connectivity failure makes every
store operation raise), the code-for-token exchange is a function from the
authorization code to an outcome supplied by the environment, and the
webhook outcome is a boolean.  Request handlers become pure functions from
(environment, store, oracles, request) to a result recording the HTTP
response, the resulting store, and how many exchange / webhook calls were
performed.
-/

namespace Aurinko

/-- A JSON value, as produced by Python `json.loads` on the strings this
service reads back from Redis.  Only the constructors this service can
observe are modelled: objects with string keys, strings, and `null`.
`json.loads` never yields duplicate keys in an object (a later duplicate
overwrites an earlier one), so object field lists are assumed duplicate-free
and looked up with `List.lookup`. -/
inductive JsonVal where
  | str (s : String)
  | obj (fields : List (String × JsonVal))
  | null

/-- Python truthiness of `dict.get(k)`'s result: `None` (absent key), the
empty string, and the empty dict are falsy; other modelled values are
truthy.  Used by `if not user_id:` in `oauth_callback`. -/
def jsonFalsy : Option JsonVal → Bool
  | none => true
  | some (.str s) => s == ""
  | some (.obj fields) => fields.isEmpty
  | some .null => true

/-- Python `str()` of a loaded JSON value, as interpolated into the
f-string `f"email-token:{user_id}"`.  For a JSON string it is the string
itself (the only case reachable from state payloads written by this
service); `null` prints as `None`; dicts are not given a faithful repr
since no claim depends on it. -/
def pyStr : JsonVal → String
  | .str s => s
  | .null => "None"
  | .obj _ => "\x7b...\x7d"

/-- Lower-case hex digit for a value below 16, as printed by CPython's
`'%x'` formatting (used both by `json.dumps`'s `\uXXXX` escapes and by
`str(UUID)`). -/
def hexLower (n : Nat) : Char :=
  if n < 10 then Char.ofNat (48 + n) else Char.ofNat (87 + n)

/-- Four lower-case hex digits (`'%04x'`) of a value below 65536. -/
def hexLower4 (n : Nat) : String :=
  ⟨[hexLower (n / 4096 % 16), hexLower (n / 256 % 16),
    hexLower (n / 16 % 16), hexLower (n % 16)]⟩

/-- Model of `json.dumps` escaping of one character with the default
`ensure_ascii=True`, following CPython's `ESCAPE_ASCII` regex and
`ESCAPE_DCT`: `"` and `\` get dedicated escapes, printable ASCII
(`0x20`–`0x7e`) passes through, the control shortcuts `\b` `\t` `\n` `\f`
`\r` apply, and every other character — remaining controls, `0x7f`, and
all non-ASCII — becomes `\uXXXX` in lower-case hex, with a surrogate pair
above the BMP. -/
def escChar (c : Char) : String :=
  if c = '"' then "\\\""
  else if c = '\\' then "\\\\"
  else if 32 ≤ c.toNat ∧ c.toNat ≤ 126 then String.singleton c
  else if c.toNat = 8 then "\\b"
  else if c.toNat = 9 then "\\t"
  else if c.toNat = 10 then "\\n"
  else if c.toNat = 12 then "\\f"
  else if c.toNat = 13 then "\\r"
  else if c.toNat < 65536 then "\\u" ++ hexLower4 c.toNat
  else "\\u" ++ hexLower4 (55296 + (c.toNat - 65536) / 1024) ++
    "\\u" ++ hexLower4 (56320 + (c.toNat - 65536) % 1024)

/-- Escaping applied to a whole string. -/
def escString (s : String) : String :=
  s.data.foldr (fun c acc => escChar c ++ acc) ""

mutual

/-- Model of `json.dumps(v, separators=(",", ":"))`: compact serialization with no
whitespace, as used by `save_oauth_state` and `persist_token`. -/
def dumps : JsonVal → String
  | .str s => "\"" ++ escString s ++ "\""
  | .null => "null"
  | .obj fields => "\x7b" ++ dumpsFields fields ++ "\x7d"

/-- Comma-separated `"key":value` pairs of an object body. -/
def dumpsFields : List (String × JsonVal) → String
  | [] => ""
  | [(k, v)] => "\"" ++ escString k ++ "\":" ++ dumps v
  | (k, v) :: f :: rest =>
    "\"" ++ escString k ++ "\":" ++ dumps v ++ "," ++ dumpsFields (f :: rest)

end

/-- A value held in the Redis store, abstracting the stored string through
the `json.dumps`/`json.loads` round trip: `jsonV v` is a string that parses
as the JSON value `v`, `notJson raw` is a non-empty string that
`json.loads` rejects, and `emptyStr` is the empty string (falsy on `get`,
indistinguishable from an absent key in `load_oauth_state`). -/
inductive StoredVal where
  | jsonV (v : JsonVal)
  | notJson (raw : String)
  | emptyStr

/-- One Redis entry: a stored value plus its TTL in seconds (`none` = no
expiry, as set by `client.set`; `some n` as set by `client.setex`). -/
structure StoreEntry where
  val : StoredVal
  ttl : Option Nat

/-- The Redis key space: an association list with at most one entry per
key (keys are opaque strings). -/
abbrev Store := List (String × StoreEntry)

/-- Redis `SET`/`SETEX`: overwrite the entry for `k` if present, else
append it. -/
def storeSet (st : Store) (k : String) (e : StoreEntry) : Store :=
  match st with
  | [] => [(k, e)]
  | (k', e') :: rest => if k' = k then (k, e) :: rest else (k', e') :: storeSet rest k e

/-- Redis `GET`: the entry stored under `k`, if any. -/
def storeGet (st : Store) (k : String) : Option StoreEntry :=
  match st with
  | [] => none
  | (k', e') :: rest => if k' = k then some e' else storeGet rest k

/-- Process environment (`os.getenv`): each variable is `none` when unset.
`load_dotenv` merely populates these. -/
structure Env where
  aurinkoClientId : Option String
  aurinkoClientSecret : Option String
  baseUrl : Option String
  oauthSuccessUrl : Option String
  webhookUrl : Option String
  deriving DecidableEq, Repr

/-- An inbound HTTP request as seen by a handler: the scheme and netloc of
the raw request URL (`request.url.scheme` / `request.url.netloc`; Starlette
derives these from the socket and Host header, not from forwarded headers),
the raw query string (`request.url.query`), and the two proxy headers
`init_oauth` consults explicitly. -/
structure Request where
  urlScheme : String
  urlNetloc : String
  query : String
  xForwardedProto : Option String
  xForwardedHost : Option String
  deriving DecidableEq, Repr

/-- Starlette `request.base_url`: `scheme://netloc/` of the raw request
URL, trailing slash included.  No proxy-header middleware is installed, so
forwarded headers are ignored here. -/
def Request.base_url (req : Request) : String :=
  req.urlScheme ++ "://" ++ req.urlNetloc ++ "/"

/-- A Python exception as it propagates between the helpers and the
handler's `try`/`except` blocks: either a FastAPI `HTTPException` with a
status code and detail, or any other exception (`KeyError`, a Redis
connection error, ...). -/
inductive PyErr where
  | http (status : Nat) (detail : String)
  | other (msg : String)
  deriving DecidableEq, Repr

/-- An HTTP response returned by a handler: a `RedirectResponse` to a URL,
or an error response produced from a raised `HTTPException`. -/
inductive Response where
  | redirect (url : String)
  | error (status : Nat) (detail : String)
  deriving DecidableEq, Repr

/-- Default scopes (`DEFAULT_SCOPES` in `main.py`). -/
def DEFAULT_SCOPES : List String := ["Mail.Read", "Mail.Send"]

/-- Resolved Aurinko configuration (`get_aurinko_config`'s return dict). -/
structure AurinkoConfig where
  client_id : String
  client_secret : String
  scopes : List String
  deriving DecidableEq, Repr

/-- Model of `get_aurinko_config`: reads `AURINKO_CLIENT_ID` / `AURINKO_CLIENT_SECRET`;
`if not client_id or not client_secret` (unset or empty) raises
`HTTPException(500, "Server misconfiguration")`. -/
def get_aurinko_config (env : Env) : Except PyErr AurinkoConfig :=
  let client_id := env.aurinkoClientId
  let client_secret := env.aurinkoClientSecret
  if client_id = none ∨ client_id = some "" ∨ client_secret = none ∨ client_secret = some "" then
    .error (.http 500 "Server misconfiguration")
  else
    .ok { client_id := client_id.getD "", client_secret := client_secret.getD "",
          scopes := DEFAULT_SCOPES }

/-! Model of `urllib.parse.quote` -/

/-- Upper-case hex digit for a value below 16 (percent-encoding uses
upper-case hex). -/
def hexUpper (n : Nat) : Char :=
  if n < 10 then Char.ofNat (48 + n) else Char.ofNat (55 + n)

/-- UTF-8 encoding of a single character, as a list of byte values.
`urllib.parse.quote` encodes the string as UTF-8 before percent-encoding. -/
def utf8Bytes (c : Char) : List Nat :=
  let n := c.toNat
  if n < 128 then [n]
  else if n < 2048 then [192 + n / 64, 128 + n % 64]
  else if n < 65536 then [224 + n / 4096, 128 + (n / 64) % 64, 128 + n % 64]
  else [240 + n / 262144, 128 + (n / 4096) % 64, 128 + (n / 64) % 64, 128 + n % 64]

/-- Bytes `urllib.parse.quote` leaves unencoded with the default
`safe='/'`: ASCII letters, digits, `_`, `.`, `-`, `~`, and `/`. -/
def quoteSafe (b : Nat) : Bool :=
  (65 ≤ b && b ≤ 90) || (97 ≤ b && b ≤ 122) || (48 ≤ b && b ≤ 57) ||
    b == 95 || b == 46 || b == 45 || b == 126 || b == 47

/-- Percent-encoding of one byte: the byte itself when safe, `%XX`
otherwise. -/
def quoteByte (b : Nat) : String :=
  if quoteSafe b then String.singleton (Char.ofNat b)
  else "%" ++ String.singleton (hexUpper (b / 16 % 16)) ++ String.singleton (hexUpper (b % 16))

/-- Model of `urllib.parse.quote(s)` with the default `safe='/'`. -/
def quote (s : String) : String :=
  String.join (s.data.map fun c => String.join ((utf8Bytes c).map quoteByte))

/-! Model of `uuid.uuid4` -/

/-- Sixteen random bytes, as drawn by `os.urandom(16)` inside
`uuid.uuid4()`; each field is one byte of the UUID in big-endian order. -/
structure UuidBytes where
  b0 : Nat
  b1 : Nat
  b2 : Nat
  b3 : Nat
  b4 : Nat
  b5 : Nat
  b6 : Nat
  b7 : Nat
  b8 : Nat
  b9 : Nat
  b10 : Nat
  b11 : Nat
  b12 : Nat
  b13 : Nat
  b14 : Nat
  b15 : Nat
  deriving DecidableEq, Repr

/-- All sixteen fields are genuine byte values. -/
def UuidBytes.valid (u : UuidBytes) : Prop :=
  u.b0 < 256 ∧ u.b1 < 256 ∧ u.b2 < 256 ∧ u.b3 < 256 ∧ u.b4 < 256 ∧ u.b5 < 256 ∧
  u.b6 < 256 ∧ u.b7 < 256 ∧ u.b8 < 256 ∧ u.b9 < 256 ∧ u.b10 < 256 ∧ u.b11 < 256 ∧
  u.b12 < 256 ∧ u.b13 < 256 ∧ u.b14 < 256 ∧ u.b15 < 256

/-- Model of `uuid.UUID(bytes=..., version=4)`: CPython clears the four version
bits and sets them to `0100`, and clears the top two bits of
`clock_seq_hi_and_reserved` and sets them to `10`.  On the big-endian
16-byte representation this masking touches exactly byte 6
(`(b6 & 0x0f) | 0x40`) and byte 8 (`(b8 & 0x3f) | 0x80`); the remaining
122 bits pass through unchanged. -/
def uuid4Raw (u : UuidBytes) : UuidBytes :=
  { u with b6 := (u.b6 &&& 15) ||| 64, b8 := (u.b8 &&& 63) ||| 128 }

/-- Two lower-case hex digits of one byte. -/
def byteHexChars (b : Nat) : List Char :=
  [hexLower (b / 16 % 16), hexLower (b % 16)]

/-- Model of `str(uuid.UUID(...))`: 32 lower-case hex digits in 8-4-4-4-12 groups
separated by dashes. -/
def uuidStr (u : UuidBytes) : String :=
  String.mk (byteHexChars u.b0 ++ byteHexChars u.b1 ++ byteHexChars u.b2 ++
    byteHexChars u.b3 ++ ['-'] ++ byteHexChars u.b4 ++ byteHexChars u.b5 ++ ['-'] ++
    byteHexChars u.b6 ++ byteHexChars u.b7 ++ ['-'] ++ byteHexChars u.b8 ++
    byteHexChars u.b9 ++ ['-'] ++ byteHexChars u.b10 ++ byteHexChars u.b11 ++
    byteHexChars u.b12 ++ byteHexChars u.b13 ++ byteHexChars u.b14 ++ byteHexChars u.b15)

/-- Model of `str(uuid.uuid4())` as a function of the 16 random bytes drawn: the
state token generated at line 151 of `main.py`. -/
def uuid4 (u : UuidBytes) : String :=
  uuidStr (uuid4Raw u)

/-- The 122 bits of the random input that survive into the version-4 UUID:
all bytes except the version nibble of byte 6 and the variant bits of
byte 8. -/
def free122 (u : UuidBytes) : List Nat :=
  [u.b0, u.b1, u.b2, u.b3, u.b4, u.b5, u.b6 % 16, u.b7, u.b8 % 64,
   u.b9, u.b10, u.b11, u.b12, u.b13, u.b14, u.b15]

/-! Internal helpers of the service -/

/-- Model of `save_oauth_state(state, payload, ttl=600)`: `client.setex(state, ttl,
json.dumps(payload))` stores the payload under `state` with the given TTL.
Any exception from Redis (modelled by `avail = false`) is caught and
re-raised as `HTTPException(500, "Internal error")`. -/
def save_oauth_state (avail : Bool) (st : Store) (state : String) (payload : JsonVal)
    (ttl : Nat := 600) : Except PyErr Store :=
  if avail then
    .ok (storeSet st state ⟨.jsonV payload, some ttl⟩)
  else
    .error (.http 500 "Internal error")

/-- Model of `load_oauth_state(state)`: `client.get(state)`; a falsy result (absent
or expired key, or stored empty string) raises `KeyError`, which the
trailing `except Exception` turns into `HTTPException(400, "Invalid
state")`.  A present value that `json.loads` rejects raises
`json.JSONDecodeError`, caught as `HTTPException(400, "Corrupted state")`.
A Redis connectivity failure (`avail = false`) raises a connection error,
which is also caught by the trailing `except Exception` as
`HTTPException(400, "Invalid state")`. -/
def load_oauth_state (avail : Bool) (st : Store) (state : String) :
    Except PyErr JsonVal :=
  if avail then
    match storeGet st state with
    | none => .error (.http 400 "Invalid state")
    | some e =>
      match e.val with
      | .emptyStr => .error (.http 400 "Invalid state")
      | .notJson _ => .error (.http 400 "Corrupted state")
      | .jsonV v => .ok v
  else
    .error (.http 400 "Invalid state")

/-- Outcome of the `httpx.post` to Aurinko's token endpoint, as supplied by
the network: a 2xx response with a JSON body, a non-2xx status (making
`raise_for_status` throw `httpx.HTTPStatusError`), or a transport error
(`httpx.TransportError`); both error classes derive `httpx.HTTPError`. -/
inductive ExchangeOutcome where
  | success (body : JsonVal)
  | httpStatusError (status : Nat)
  | transportError

/-- Model of `exchange_code_for_token(code)`: resolves the Aurinko config (raising
`HTTPException(500, ...)` when credentials are unset, before any network
call), then posts to the token endpoint; any `httpx.HTTPError` is caught
and re-raised as `HTTPException(502, "Token exchange with Aurinko
failed")`.  Returns the outcome together with the number of exchange HTTP
calls performed (0 when the config check fails, 1 once `httpx.post` runs). -/
def exchange_code_for_token (env : Env) (exch : String → ExchangeOutcome)
    (code : String) : Except PyErr JsonVal × Nat :=
  match get_aurinko_config env with
  | .error e => (.error e, 0)
  | .ok _ =>
    match exch code with
    | .success body => (.ok body, 1)
    | .httpStatusError _ => (.error (.http 502 "Token exchange with Aurinko failed"), 1)
    | .transportError => (.error (.http 502 "Token exchange with Aurinko failed"), 1)

/-! Persistence and notifications -/

/-- Model of `persist_token(user_id, token_res)`: `client.set(f"email-token:{user_id}",
json.dumps(token_res))` — no TTL, overwriting any prior value.  On a Redis
failure the handler logs and re-`raise`s the original (non-HTTP) exception. -/
def persist_token (avail : Bool) (st : Store) (user_id : String)
    (token_res : JsonVal) : Except PyErr Store :=
  if avail then
    .ok (storeSet st ("email-token:" ++ user_id) ⟨.jsonV token_res, none⟩)
  else
    .error (.other "redis connection error")

/-- Outcome of the webhook `httpx.post`, as supplied by the network. -/
inductive WebhookOutcome where
  | success
  | httpError

/-- Model of `notify_webhook(user_id)`: no-op when `WEBHOOK_URL` is unset; otherwise
posts `{"userId": user_id}` and swallows any `httpx.HTTPError` (from
`raise_for_status` or the transport).  Returns the number of webhook HTTP
calls performed; both outcomes return normally. -/
def notify_webhook (env : Env) (wh : WebhookOutcome) : Nat :=
  match env.webhookUrl with
  | none => 0
  | some _ =>
    match wh with
    | .success => 1
    | .httpError => 1

/-! Endpoints -/

/-- Python `stored.get("userId")`: succeeds with the field (or `None`) when
the loaded JSON value is a dict; on any other value `.get` does not exist
and an `AttributeError` propagates to the handler's generic handler. -/
def dictGet (v : JsonVal) (k : String) : Except PyErr (Option JsonVal) :=
  match v with
  | .obj fields => .ok (fields.lookup k)
  | _ => .error (.other "AttributeError")

/-- The base URL `init_oauth` computes: `BASE_URL` if set, otherwise
scheme and host taken from the `x-forwarded-proto` / `x-forwarded-host`
headers with the raw request URL as fallback. -/
def initBaseUrl (env : Env) (req : Request) : String :=
  let scheme := req.xForwardedProto.getD req.urlScheme
  let host := req.xForwardedHost.getD req.urlNetloc
  env.baseUrl.getD (scheme ++ "://" ++ host)

/-- The authorize URL `init_oauth` constructs: fixed endpoint with
`clientId`, `serviceType=Google`, percent-encoded space-joined scopes,
`responseType=code`, percent-encoded return URL, and the state token. -/
def authorize_url (cfg : AurinkoConfig) (base_url state : String) : String :=
  "https://api.aurinko.io/v1/auth/authorize?clientId=" ++ cfg.client_id ++
    "&serviceType=Google" ++
    "&scopes=" ++ quote (String.intercalate " " cfg.scopes) ++
    "&responseType=code" ++
    "&returnUrl=" ++ quote (base_url ++ "/auth/callback") ++
    "&state=" ++ state

/-- Result of running a handler: the HTTP response, the store after the
request, and the number of exchange / webhook HTTP calls performed. -/
structure HandlerResult where
  response : Response
  store : Store
  exchangeCalls : Nat
  webhookCalls : Nat

/-- The `try`/`except` tail shared by `init_oauth` and `oauth_callback`:
an `HTTPException` is re-raised as-is (FastAPI renders it with its status
and detail); any other exception becomes a 500 "Internal server error". -/
def handleErr (e : PyErr) (st : Store) (ex wh : Nat) : HandlerResult :=
  match e with
  | .http s d => ⟨.error s d, st, ex, wh⟩
  | .other _ => ⟨.error 500 "Internal server error", st, ex, wh⟩

/-- Endpoint `GET /auth/init`.  `userId` is a required query parameter: a request
without it fails FastAPI validation with a 422 before the handler body
runs.  `state` is the value `str(uuid.uuid4())` produced at line 151,
passed here as an explicit parameter.  The handler resolves the config,
saves `{"userId": userId}` under the state token with a 600s TTL, and
redirects to the authorize URL built on `initBaseUrl`. -/
def init_oauth (env : Env) (avail : Bool) (st : Store) (state : String)
    (req : Request) (userId : Option String) : HandlerResult :=
  match userId with
  | none => ⟨.error 422 "Field required", st, 0, 0⟩
  | some uid =>
    match get_aurinko_config env with
    | .error e => handleErr e st 0 0
    | .ok cfg =>
      match save_oauth_state avail st state (.obj [("userId", .str uid)]) with
      | .error e => handleErr e st 0 0
      | .ok st' =>
        ⟨.redirect (authorize_url cfg (initBaseUrl env req) state), st', 0, 0⟩

/-- Endpoint `GET /auth/relay`: redirect to the fixed Aurinko callback URL with the
inbound raw query string appended verbatim. -/
def relay_callback (req : Request) : Response :=
  .redirect ("https://api.aurinko.io/v1/auth/callback?" ++ req.query)

/-- The success URL `oauth_callback` redirects to: `OAUTH_SUCCESS_URL` if
set, else `f"{request.base_url}auth/success"` built on the raw request's
base URL (no `BASE_URL` override, no forwarded headers). -/
def callbackSuccessUrl (env : Env) (req : Request) : String :=
  env.oauthSuccessUrl.getD (req.base_url ++ "auth/success")

/-- Endpoint `GET /auth/callback` (with `code` and `state` both present; FastAPI
rejects requests missing either with a 422 before the handler runs).
Loads the state, checks the payload's `userId` for truthiness, exchanges
the code, persists the token under `email-token:{user_id}`, fires the
best-effort webhook, and redirects to the success URL.  A raised
`HTTPException` propagates unchanged; any other exception becomes a 500. -/
def oauth_callback (env : Env) (avail : Bool) (st : Store)
    (exch : String → ExchangeOutcome) (wh : WebhookOutcome)
    (req : Request) (code state : String) : HandlerResult :=
  match load_oauth_state avail st state with
  | .error e => handleErr e st 0 0
  | .ok stored =>
    match dictGet stored "userId" with
    | .error e => handleErr e st 0 0
    | .ok user_id =>
      if jsonFalsy user_id then
        handleErr (.http 400 "Invalid state data") st 0 0
      else
        match exchange_code_for_token env exch code with
        | (.error e, n) => handleErr e st n 0
        | (.ok token_res, n) =>
          match persist_token avail st (pyStr (user_id.getD .null)) token_res with
          | .error e => handleErr e st n 0
          | .ok st' =>
            let wcalls := notify_webhook env wh
            ⟨.redirect (callbackSuccessUrl env req), st', n, wcalls⟩

/-! Concrete fixtures -/

/-- A well-configured environment used to instantiate theorems on concrete
inputs. -/
def envOkC : Env :=
  { aurinkoClientId := some "cid", aurinkoClientSecret := some "sec",
    baseUrl := none, oauthSuccessUrl := none, webhookUrl := none }

/-- A plain direct (unproxied) request used for concrete instantiations. -/
def reqC : Request :=
  { urlScheme := "http", urlNetloc := "localhost:8000", query := "",
    xForwardedProto := none, xForwardedHost := none }

/-- A request arriving through a reverse proxy: the raw URL is the
internal one, the forwarded headers carry the public scheme and host. -/
def reqProxyC : Request :=
  { urlScheme := "http", urlNetloc := "internal:8000", query := "",
    xForwardedProto := some "https", xForwardedHost := some "pub.example.com" }

/-! Store lemmas -/

/-- Reading back the key just written returns the new entry. -/
theorem storeGet_storeSet_self (st : Store) (k : String) (e : StoreEntry) :
    storeGet (storeSet st k e) k = some e := by
  induction st with
  | nil => simp [storeSet, storeGet]
  | cons hd tl ih =>
    obtain ⟨k', e'⟩ := hd
    by_cases h : k' = k <;> simp [storeSet, storeGet, h, ih]

/-- A write leaves every other key unchanged. -/
theorem storeGet_storeSet_of_ne (st : Store) (k k' : String) (e : StoreEntry)
    (h : k' ≠ k) : storeGet (storeSet st k e) k' = storeGet st k' := by
  have h' : ¬(k = k') := fun hh => h hh.symm
  induction st with
  | nil => simp [storeSet, storeGet, h']
  | cons hd tl ih =>
    obtain ⟨k'', e''⟩ := hd
    by_cases h2 : k'' = k
    · subst h2
      simp [storeSet, storeGet, h']
    · simp [storeSet, storeGet, h2, ih]

/-! Claims -/

/-- C1: a `/auth/callback` request whose `state` is not present in the
store (absent or expired — Redis `GET` returns nothing) yields the
400-equivalent "Invalid state" error, performs no code-for-token exchange
call, and leaves the store unchanged (no TokenRecord written). -/
theorem callback_unknown_state_rejected (env : Env) (st : Store)
    (exch : String → ExchangeOutcome) (wh : WebhookOutcome) (req : Request)
    (code state : String) (h : storeGet st state = none) :
    oauth_callback env true st exch wh req code state =
      ⟨.error 400 "Invalid state", st, 0, 0⟩ := by
  simp [oauth_callback, load_oauth_state, h, handleErr]

/-- Witness for C1 at a concrete input: the empty store has no entry for
the token, and the callback returns the 400 with zero exchange calls. -/
theorem callback_unknown_state_rejected_witness :
    storeGet ([] : Store) "tok" = none ∧
    oauth_callback envOkC true [] (fun _ => .transportError) .success reqC
        "c0de" "tok" =
      ⟨.error 400 "Invalid state", [], 0, 0⟩ :=
  ⟨rfl, callback_unknown_state_rejected envOkC [] (fun _ => .transportError)
    .success reqC "c0de" "tok" rfl⟩

/-- C2: a `/auth/callback` request with a valid state (stored JSON payload
with a truthy `userId`) whose code-for-token exchange fails — non-2xx HTTP
status or transport error — returns the 502-equivalent error and leaves
the store unchanged (no TokenRecord written), after exactly one exchange
attempt. -/
theorem callback_exchange_failure_502 (env : Env) (st : Store)
    (exch : String → ExchangeOutcome) (wh : WebhookOutcome) (req : Request)
    (code state : String) (fields : List (String × JsonVal)) (ttl : Option Nat)
    (v : JsonVal) (cfg : AurinkoConfig)
    (hst : storeGet st state = some ⟨.jsonV (.obj fields), ttl⟩)
    (huid : fields.lookup "userId" = some v)
    (htruthy : jsonFalsy (some v) = false)
    (hcfg : get_aurinko_config env = .ok cfg)
    (hfail : (∃ s, exch code = .httpStatusError s) ∨ exch code = .transportError) :
    oauth_callback env true st exch wh req code state =
      ⟨.error 502 "Token exchange with Aurinko failed", st, 1, 0⟩ := by
  rcases hfail with ⟨s, hs⟩ | hs <;>
    simp [oauth_callback, load_oauth_state, hst, dictGet, huid, htruthy,
      exchange_code_for_token, hcfg, hs, handleErr]

/-- Witness for C2 at a concrete input: one stored state for user `u1`,
provider answers 400 to the exchange; the callback returns 502 and the
store still holds exactly the original state entry. -/
theorem callback_exchange_failure_502_witness :
    oauth_callback envOkC true
        [("tok", ⟨.jsonV (.obj [("userId", .str "u1")]), some 600⟩)]
        (fun _ => .httpStatusError 400) .success reqC "c0de" "tok" =
      ⟨.error 502 "Token exchange with Aurinko failed",
        [("tok", ⟨.jsonV (.obj [("userId", .str "u1")]), some 600⟩)], 1, 0⟩ :=
  callback_exchange_failure_502 envOkC
    [("tok", ⟨.jsonV (.obj [("userId", .str "u1")]), some 600⟩)]
    (fun _ => .httpStatusError 400) .success reqC "c0de" "tok"
    [("userId", .str "u1")] (some 600) (.str "u1")
    ⟨"cid", "sec", DEFAULT_SCOPES⟩ rfl rfl rfl rfl (.inl ⟨400, rfl⟩)

/-- C4: `/auth/relay` always redirects to the provider's fixed callback
URL with the inbound raw query string appended unmodified; the target's
character data is exactly the fixed prefix followed by the query,
whatever the query contains (empty, malformed, or unicode). -/
theorem relay_forwards_query_verbatim (req : Request) :
    relay_callback req =
      .redirect ("https://api.aurinko.io/v1/auth/callback?" ++ req.query) ∧
    ("https://api.aurinko.io/v1/auth/callback?" ++ req.query).data =
      "https://api.aurinko.io/v1/auth/callback?".data ++ req.query.data := by
  refine ⟨rfl, ?_⟩
  simp [String.data_append]

/-- Shared reduction: on the success path (valid state with truthy string
`userId`, config present, provider accepts the code, store reachable) the
callback evaluates to the success redirect, the store with the token
written, one exchange call, and the webhook count. -/
theorem callback_success_reduction (env : Env) (st : Store)
    (exch : String → ExchangeOutcome) (wh : WebhookOutcome) (req : Request)
    (code state : String) (fields : List (String × JsonVal)) (ttl : Option Nat)
    (u : String) (body : JsonVal) (cfg : AurinkoConfig)
    (hst : storeGet st state = some ⟨.jsonV (.obj fields), ttl⟩)
    (huid : fields.lookup "userId" = some (.str u))
    (hu : u ≠ "")
    (hcfg : get_aurinko_config env = .ok cfg)
    (hok : exch code = .success body) :
    oauth_callback env true st exch wh req code state =
      ⟨.redirect (callbackSuccessUrl env req),
        storeSet st ("email-token:" ++ u) ⟨.jsonV body, none⟩, 1,
        notify_webhook env wh⟩ := by
  simp [oauth_callback, load_oauth_state, hst, dictGet, huid, jsonFalsy, hu,
    exchange_code_for_token, hcfg, hok, persist_token, pyStr]

/-- C3: a `/auth/callback` request with a valid unexpired state whose
payload carries a (non-empty string) `userId`, and a code the provider
exchange accepts, persists exactly one TokenRecord: the store after the
request holds the provider's response under `email-token:{userId}` with no
TTL (overwriting any prior entry at that key), every other key is
untouched, and the response redirects to the success URL. -/
theorem callback_success_persists_token (env : Env) (st : Store)
    (exch : String → ExchangeOutcome) (wh : WebhookOutcome) (req : Request)
    (code state : String) (fields : List (String × JsonVal)) (ttl : Option Nat)
    (u : String) (body : JsonVal) (cfg : AurinkoConfig)
    (hst : storeGet st state = some ⟨.jsonV (.obj fields), ttl⟩)
    (huid : fields.lookup "userId" = some (.str u))
    (hu : u ≠ "")
    (hcfg : get_aurinko_config env = .ok cfg)
    (hok : exch code = .success body) :
    (oauth_callback env true st exch wh req code state).response =
      .redirect (callbackSuccessUrl env req) ∧
    (oauth_callback env true st exch wh req code state).store =
      storeSet st ("email-token:" ++ u) ⟨.jsonV body, none⟩ ∧
    storeGet (oauth_callback env true st exch wh req code state).store
      ("email-token:" ++ u) = some ⟨.jsonV body, none⟩ ∧
    (∀ k, k ≠ "email-token:" ++ u →
      storeGet (oauth_callback env true st exch wh req code state).store k =
        storeGet st k) := by
  rw [callback_success_reduction env st exch wh req code state fields ttl u
    body cfg hst huid hu hcfg hok]
  exact ⟨rfl, rfl, storeGet_storeSet_self st _ _,
    fun k hk => storeGet_storeSet_of_ne st _ k _ hk⟩

/-- Witness for C3 at a concrete input: valid state for user `u1`,
provider accepts the code; the token record appears under
`email-token:u1` with no TTL and the response is the success redirect. -/
theorem callback_success_persists_token_witness :
    (oauth_callback envOkC true
        [("tok", ⟨.jsonV (.obj [("userId", .str "u1")]), some 600⟩)]
        (fun _ => .success (.obj [("accessToken", .str "at")])) .success reqC
        "c0de" "tok").response =
      .redirect (callbackSuccessUrl envOkC reqC) ∧
    (oauth_callback envOkC true
        [("tok", ⟨.jsonV (.obj [("userId", .str "u1")]), some 600⟩)]
        (fun _ => .success (.obj [("accessToken", .str "at")])) .success reqC
        "c0de" "tok").store =
      storeSet [("tok", ⟨.jsonV (.obj [("userId", .str "u1")]), some 600⟩)]
        ("email-token:" ++ "u1") ⟨.jsonV (.obj [("accessToken", .str "at")]), none⟩ ∧
    storeGet (oauth_callback envOkC true
        [("tok", ⟨.jsonV (.obj [("userId", .str "u1")]), some 600⟩)]
        (fun _ => .success (.obj [("accessToken", .str "at")])) .success reqC
        "c0de" "tok").store ("email-token:" ++ "u1") =
      some ⟨.jsonV (.obj [("accessToken", .str "at")]), none⟩ ∧
    (∀ k, k ≠ "email-token:" ++ "u1" →
      storeGet (oauth_callback envOkC true
          [("tok", ⟨.jsonV (.obj [("userId", .str "u1")]), some 600⟩)]
          (fun _ => .success (.obj [("accessToken", .str "at")])) .success reqC
          "c0de" "tok").store k =
        storeGet [("tok", ⟨.jsonV (.obj [("userId", .str "u1")]), some 600⟩)] k) :=
  callback_success_persists_token envOkC
    [("tok", ⟨.jsonV (.obj [("userId", .str "u1")]), some 600⟩)]
    (fun _ => .success (.obj [("accessToken", .str "at")])) .success reqC
    "c0de" "tok" [("userId", .str "u1")] (some 600) "u1"
    (.obj [("accessToken", .str "at")]) ⟨"cid", "sec", DEFAULT_SCOPES⟩
    rfl rfl (by simp) rfl rfl

/-- C7: on the success path the webhook never affects the response — for
every webhook outcome (success or any swallowed `httpx.HTTPError`) the
callback still redirects to the success URL, and when no webhook URL is
configured no webhook call is made at all. -/
theorem callback_webhook_never_affects_response (env : Env) (st : Store)
    (exch : String → ExchangeOutcome) (req : Request)
    (code state : String) (fields : List (String × JsonVal)) (ttl : Option Nat)
    (u : String) (body : JsonVal) (cfg : AurinkoConfig)
    (hst : storeGet st state = some ⟨.jsonV (.obj fields), ttl⟩)
    (huid : fields.lookup "userId" = some (.str u))
    (hu : u ≠ "")
    (hcfg : get_aurinko_config env = .ok cfg)
    (hok : exch code = .success body) :
    (∀ wh : WebhookOutcome,
      (oauth_callback env true st exch wh req code state).response =
        .redirect (callbackSuccessUrl env req)) ∧
    (env.webhookUrl = none → ∀ wh : WebhookOutcome,
      (oauth_callback env true st exch wh req code state).webhookCalls = 0) := by
  constructor
  · intro wh
    rw [callback_success_reduction env st exch wh req code state fields ttl u
      body cfg hst huid hu hcfg hok]
  · intro hnone wh
    rw [callback_success_reduction env st exch wh req code state fields ttl u
      body cfg hst huid hu hcfg hok]
    simp [notify_webhook, hnone]

/-- Witness for C7 at a concrete input: with a webhook URL configured and
the webhook call failing, the callback still redirects to the success URL;
with no webhook URL configured no webhook call happens. -/
theorem callback_webhook_never_affects_response_witness :
    (∀ wh : WebhookOutcome,
      (oauth_callback
          { envOkC with webhookUrl := some "https://hook.example.com" } true
          [("tok", ⟨.jsonV (.obj [("userId", .str "u1")]), some 600⟩)]
          (fun _ => .success .null) wh reqC "c0de" "tok").response =
        .redirect (callbackSuccessUrl
          { envOkC with webhookUrl := some "https://hook.example.com" } reqC)) ∧
    (({ envOkC with webhookUrl := some "https://hook.example.com" } : Env).webhookUrl
        = none → ∀ wh : WebhookOutcome,
      (oauth_callback
          { envOkC with webhookUrl := some "https://hook.example.com" } true
          [("tok", ⟨.jsonV (.obj [("userId", .str "u1")]), some 600⟩)]
          (fun _ => .success .null) wh reqC "c0de" "tok").webhookCalls = 0) :=
  callback_webhook_never_affects_response
    { envOkC with webhookUrl := some "https://hook.example.com" }
    [("tok", ⟨.jsonV (.obj [("userId", .str "u1")]), some 600⟩)]
    (fun _ => .success .null) reqC "c0de" "tok" [("userId", .str "u1")]
    (some 600) "u1" .null ⟨"cid", "sec", DEFAULT_SCOPES⟩
    rfl rfl (by simp) rfl rfl

/-- C6 counterexample: with the store unreachable, loading OAuth state is
surfaced as the 400-equivalent "Invalid state" error — the same one used
for absent state — not as a distinct 500-equivalent error: the generic
`except Exception` in `load_oauth_state` catches the connection error. -/
theorem load_store_unavailable_counterexample :
    load_oauth_state false [] "tok" = .error (.http 400 "Invalid state") ∧
    (oauth_callback envOkC false [] (fun _ => .transportError) .success reqC
        "c0de" "tok").response = .error 400 "Invalid state" ∧
    ∀ d, (oauth_callback envOkC false [] (fun _ => .transportError) .success
        reqC "c0de" "tok").response ≠ .error 500 d := by
  refine ⟨rfl, rfl, ?_⟩
  intro d h
  simp [oauth_callback, load_oauth_state, handleErr] at h

/-- C6 amended: a store connectivity failure while loading OAuth state is
caught by `load_oauth_state`'s trailing `except Exception` and surfaced as
the same 400-equivalent "Invalid state" error used for absent state (not a
distinct 500-equivalent error); the callback then stops — no exchange
call, store untouched.  (Only `save_oauth_state`, used by `/auth/init`,
maps store failures to a 500.) -/
theorem callback_store_unavailable_is_400 (env : Env) (st : Store)
    (exch : String → ExchangeOutcome) (wh : WebhookOutcome) (req : Request)
    (code state : String) :
    oauth_callback env false st exch wh req code state =
      ⟨.error 400 "Invalid state", st, 0, 0⟩ ∧
    load_oauth_state false st state = .error (.http 400 "Invalid state") ∧
    (∀ payload, save_oauth_state false st state payload =
      .error (.http 500 "Internal error")) := by
  refine ⟨?_, ?_, fun payload => ?_⟩ <;>
    simp [oauth_callback, load_oauth_state, save_oauth_state, handleErr]

/-- C10: with `OAUTH_SUCCESS_URL` unset, the callback's success redirect
targets the raw request's base URL with `auth/success` appended; the
success URL is unchanged by any `BASE_URL` override or forwarded headers
(which `initBaseUrl`, used by `/auth/init`, does honour) — so behind a
proxy the two endpoints derive different base URLs from the same request,
as the concrete proxied request exhibits. -/
theorem callback_success_url_from_raw_request (env : Env) (st : Store)
    (exch : String → ExchangeOutcome) (wh : WebhookOutcome) (req : Request)
    (code state : String) (fields : List (String × JsonVal)) (ttl : Option Nat)
    (u : String) (body : JsonVal) (cfg : AurinkoConfig)
    (hsucc : env.oauthSuccessUrl = none)
    (hst : storeGet st state = some ⟨.jsonV (.obj fields), ttl⟩)
    (huid : fields.lookup "userId" = some (.str u))
    (hu : u ≠ "")
    (hcfg : get_aurinko_config env = .ok cfg)
    (hok : exch code = .success body) :
    (oauth_callback env true st exch wh req code state).response =
      .redirect (req.base_url ++ "auth/success") ∧
    (∀ b p hh, callbackSuccessUrl { env with baseUrl := b }
        { req with xForwardedProto := p, xForwardedHost := hh } =
      callbackSuccessUrl env req) ∧
    initBaseUrl envOkC reqProxyC = "https://pub.example.com" ∧
    reqProxyC.base_url = "http://internal:8000/" := by
  refine ⟨?_, fun b p hh => rfl, rfl, rfl⟩
  rw [callback_success_reduction env st exch wh req code state fields ttl u
    body cfg hst huid hu hcfg hok]
  simp [callbackSuccessUrl, hsucc]

/-- Witness for C10 at a concrete input: `envOkC` has no success-URL
override, and the success-path callback redirects to the raw request's
base URL plus `auth/success`. -/
theorem callback_success_url_from_raw_request_witness :
    (oauth_callback envOkC true
        [("tok", ⟨.jsonV (.obj [("userId", .str "u1")]), some 600⟩)]
        (fun _ => .success .null) .success reqC "c0de" "tok").response =
      .redirect (reqC.base_url ++ "auth/success") ∧
    (∀ b p hh, callbackSuccessUrl { envOkC with baseUrl := b }
        { reqC with xForwardedProto := p, xForwardedHost := hh } =
      callbackSuccessUrl envOkC reqC) ∧
    initBaseUrl envOkC reqProxyC = "https://pub.example.com" ∧
    reqProxyC.base_url = "http://internal:8000/" :=
  callback_success_url_from_raw_request envOkC
    [("tok", ⟨.jsonV (.obj [("userId", .str "u1")]), some 600⟩)]
    (fun _ => .success .null) .success reqC "c0de" "tok"
    [("userId", .str "u1")] (some 600) "u1" .null
    ⟨"cid", "sec", DEFAULT_SCOPES⟩ rfl rfl rfl (by simp) rfl rfl

/-- Escape-free characters — printable ASCII other than `"` and `\` —
pass through `escChar` folding unchanged. -/
theorem escFoldr_eq (l : List Char)
    (h : ∀ c ∈ l, c ≠ '"' ∧ c ≠ '\\' ∧ 32 ≤ c.toNat ∧ c.toNat ≤ 126) :
    l.foldr (fun c acc => escChar c ++ acc) "" = ⟨l⟩ := by
  induction l with
  | nil => rfl
  | cons c t ih =>
    have hc := h c (List.mem_cons_self c t)
    have ht := ih fun x hx => h x (List.mem_cons_of_mem _ hx)
    simp only [List.foldr_cons, ht]
    simp only [escChar, if_neg hc.1, if_neg hc.2.1, if_pos hc.2.2]
    rfl

/-- A string of printable ASCII without `"` or `\` serializes to itself. -/
theorem escString_eq_self (s : String)
    (h : ∀ c ∈ s.data, c ≠ '"' ∧ c ≠ '\\' ∧ 32 ≤ c.toNat ∧ c.toNat ≤ 126) :
    escString s = s := by
  obtain ⟨l⟩ := s
  exact escFoldr_eq l h

/-- Compact serialization of the state payload written by `/auth/init`,
for a `userId` of printable ASCII characters needing no escape. -/
theorem dumps_userId (uid : String)
    (h : ∀ c ∈ uid.data, c ≠ '"' ∧ c ≠ '\\' ∧ 32 ≤ c.toNat ∧ c.toNat ≤ 126) :
    dumps (.obj [("userId", .str uid)]) = "\x7b\"userId\":\"" ++ uid ++ "\"\x7d" := by
  have h1 : escString uid = uid := escString_eq_self uid h
  have h2 : escString "userId" = "userId" := rfl
  simp only [dumps, dumpsFields, h1, h2]
  apply String.ext
  simp [String.data_append, List.append_assoc]

/-- Shared reduction of `/auth/init` on the happy path: state saved with
TTL 600, redirect to the authorize URL with the concrete percent-encoded
scopes. -/
theorem init_success_reduction (env : Env) (st : Store) (state : String)
    (req : Request) (uid cid cs : String)
    (hcid : env.aurinkoClientId = some cid) (hcid' : cid ≠ "")
    (hcs : env.aurinkoClientSecret = some cs) (hcs' : cs ≠ "") :
    init_oauth env true st state req (some uid) =
      ⟨.redirect ("https://api.aurinko.io/v1/auth/authorize?clientId=" ++ cid ++
          "&serviceType=Google" ++ "&scopes=" ++ "Mail.Read%20Mail.Send" ++
          "&responseType=code" ++ "&returnUrl=" ++
          quote (initBaseUrl env req ++ "/auth/callback") ++ "&state=" ++ state),
        storeSet st state ⟨.jsonV (.obj [("userId", .str uid)]), some 600⟩, 0, 0⟩ := by
  have hcfg : get_aurinko_config env = .ok ⟨cid, cs, DEFAULT_SCOPES⟩ := by
    simp [get_aurinko_config, hcid, hcs, hcid', hcs']
  have hq : quote (String.intercalate " " DEFAULT_SCOPES) = "Mail.Read%20Mail.Send" := rfl
  simp [init_oauth, hcfg, save_oauth_state, authorize_url, hq]

/-- C5: `/auth/init` with a `userId` stores the state token with TTL 600
seconds mapping to the payload whose compact JSON form is
`{"userId": <userId>}` (stated for userIds of printable ASCII characters
needing no `json.dumps` escape; other characters are stored `\`-escaped
per `escChar`), touches no other key, and redirects to the authorize URL
whose query carries `clientId`, `serviceType=Google`, the space-joined
percent-encoded scopes (`Mail.Read%20Mail.Send`), `responseType=code`,
the percent-encoded return URL, and the same state token as its `state`
parameter. -/
theorem init_stores_state_and_redirects (env : Env) (st : Store)
    (state : String) (req : Request) (uid cid cs : String)
    (hcid : env.aurinkoClientId = some cid) (hcid' : cid ≠ "")
    (hcs : env.aurinkoClientSecret = some cs) (hcs' : cs ≠ "")
    (huid : ∀ c ∈ uid.data, c ≠ '"' ∧ c ≠ '\\' ∧ 32 ≤ c.toNat ∧ c.toNat ≤ 126) :
    init_oauth env true st state req (some uid) =
      ⟨.redirect ("https://api.aurinko.io/v1/auth/authorize?clientId=" ++ cid ++
          "&serviceType=Google" ++ "&scopes=" ++ "Mail.Read%20Mail.Send" ++
          "&responseType=code" ++ "&returnUrl=" ++
          quote (initBaseUrl env req ++ "/auth/callback") ++ "&state=" ++ state),
        storeSet st state ⟨.jsonV (.obj [("userId", .str uid)]), some 600⟩, 0, 0⟩ ∧
    storeGet (init_oauth env true st state req (some uid)).store state =
      some ⟨.jsonV (.obj [("userId", .str uid)]), some 600⟩ ∧
    (∀ k, k ≠ state →
      storeGet (init_oauth env true st state req (some uid)).store k =
        storeGet st k) ∧
    dumps (.obj [("userId", .str uid)]) =
      "\x7b\"userId\":\"" ++ uid ++ "\"\x7d" := by
  have hr := init_success_reduction env st state req uid cid cs hcid hcid' hcs hcs'
  refine ⟨hr, ?_, ?_, dumps_userId uid huid⟩
  · rw [hr]
    exact storeGet_storeSet_self st state _
  · intro k hk
    rw [hr]
    exact storeGet_storeSet_of_ne st state k _ hk

/-- Witness for C5 at a concrete input: a configured environment, empty
store, token `tok`, user `user-1`. -/
theorem init_stores_state_and_redirects_witness :
    init_oauth envOkC true [] "tok" reqC (some "user-1") =
      ⟨.redirect ("https://api.aurinko.io/v1/auth/authorize?clientId=" ++ "cid" ++
          "&serviceType=Google" ++ "&scopes=" ++ "Mail.Read%20Mail.Send" ++
          "&responseType=code" ++ "&returnUrl=" ++
          quote (initBaseUrl envOkC reqC ++ "/auth/callback") ++ "&state=" ++ "tok"),
        storeSet [] "tok" ⟨.jsonV (.obj [("userId", .str "user-1")]), some 600⟩, 0, 0⟩ ∧
    storeGet (init_oauth envOkC true [] "tok" reqC (some "user-1")).store "tok" =
      some ⟨.jsonV (.obj [("userId", .str "user-1")]), some 600⟩ ∧
    (∀ k, k ≠ "tok" →
      storeGet (init_oauth envOkC true [] "tok" reqC (some "user-1")).store k =
        storeGet [] k) ∧
    dumps (.obj [("userId", .str "user-1")]) =
      "\x7b\"userId\":\"" ++ "user-1" ++ "\"\x7d" :=
  init_stores_state_and_redirects envOkC [] "tok" reqC "user-1" "cid" "sec"
    rfl (by decide) rfl (by decide) (by decide)

/-- C9 counterexample: an `/auth/init` request whose `userId` is the empty
string is *not* rejected — the handler proceeds, stores the state token
with the empty `userId`, and responds with the authorize redirect (FastAPI
only rejects a *missing* `userId`, not an empty one). -/
theorem init_empty_userId_accepted_counterexample :
    storeGet (init_oauth envOkC true [] "tok" reqC (some "")).store "tok" =
      some ⟨.jsonV (.obj [("userId", .str "")]), some 600⟩ ∧
    (∀ s d, (init_oauth envOkC true [] "tok" reqC (some "")).response ≠
      .error s d) := by
  have hr := init_success_reduction envOkC [] "tok" reqC "" "cid" "sec"
    rfl (by decide) rfl (by decide)
  constructor
  · rw [hr]
    exact storeGet_storeSet_self [] "tok" _
  · intro s d h
    rw [hr] at h
    simp at h

/-- C9 amended: `userId` is required at the request level — a request
missing the parameter fails validation with a 422 and touches nothing —
but an *empty* `userId` is accepted: the handler proceeds to create and
store the state token with `{"userId": ""}` and responds with the
authorize redirect rather than an error. -/
theorem init_userId_required_but_empty_accepted (env : Env) (st : Store)
    (state : String) (req : Request) (cid cs : String)
    (hcid : env.aurinkoClientId = some cid) (hcid' : cid ≠ "")
    (hcs : env.aurinkoClientSecret = some cs) (hcs' : cs ≠ "") :
    init_oauth env true st state req none =
      ⟨.error 422 "Field required", st, 0, 0⟩ ∧
    storeGet (init_oauth env true st state req (some "")).store state =
      some ⟨.jsonV (.obj [("userId", .str "")]), some 600⟩ ∧
    (∀ s d, (init_oauth env true st state req (some "")).response ≠
      .error s d) := by
  have hr := init_success_reduction env st state req "" cid cs hcid hcid' hcs hcs'
  refine ⟨rfl, ?_, ?_⟩
  · rw [hr]
    exact storeGet_storeSet_self st state _
  · intro s d h
    rw [hr] at h
    simp at h

/-- Witness for C9's amended claim at a concrete input. -/
theorem init_userId_required_but_empty_accepted_witness :
    init_oauth envOkC true [] "tok" reqC none =
      ⟨.error 422 "Field required", [], 0, 0⟩ ∧
    storeGet (init_oauth envOkC true [] "tok" reqC (some "")).store "tok" =
      some ⟨.jsonV (.obj [("userId", .str "")]), some 600⟩ ∧
    (∀ s d, (init_oauth envOkC true [] "tok" reqC (some "")).response ≠
      .error s d) :=
  init_userId_required_but_empty_accepted envOkC [] "tok" reqC "cid" "sec"
    rfl (by decide) rfl (by decide)

set_option maxRecDepth 4096 in
/-- Masking a byte with `0x0f` and setting `0x40` keeps its low nibble. -/
theorem and15or64 : ∀ x, x < 256 → ((x &&& 15) ||| 64) = x % 16 + 64 := by
  decide

set_option maxRecDepth 4096 in
/-- Masking a byte with `0x3f` and setting `0x80` keeps its low six bits. -/
theorem and63or128 : ∀ x, x < 256 → ((x &&& 63) ||| 128) = x % 64 + 128 := by
  decide

/-- Hex formatting is injective on nibbles. -/
theorem hexLower_inj : ∀ a, a < 16 → ∀ b, b < 16 → hexLower a = hexLower b → a = b := by
  decide

/-- A byte is determined by its two hex digits. -/
theorem byte_of_hex_eq (x y : Nat) (hx : x < 256) (hy : y < 256)
    (hh : hexLower (x / 16 % 16) = hexLower (y / 16 % 16))
    (hl : hexLower (x % 16) = hexLower (y % 16)) : x = y := by
  have e1 := hexLower_inj (x / 16 % 16) (by omega) (y / 16 % 16) (by omega) hh
  have e2 := hexLower_inj (x % 16) (by omega) (y % 16) (by omega) hl
  omega

set_option maxHeartbeats 2000000 in
/-- UUID string formatting is injective on byte-valid inputs. -/
theorem uuidStr_inj (u1 u2 : UuidBytes) (h1 : u1.valid) (h2 : u2.valid)
    (h : uuidStr u1 = uuidStr u2) : u1 = u2 := by
  obtain ⟨a0,a1,a2,a3,a4,a5,a6,a7,a8,a9,a10,a11,a12,a13,a14,a15⟩ := u1
  obtain ⟨c0,c1,c2,c3,c4,c5,c6,c7,c8,c9,c10,c11,c12,c13,c14,c15⟩ := u2
  obtain ⟨ha0,ha1,ha2,ha3,ha4,ha5,ha6,ha7,ha8,ha9,ha10,ha11,ha12,ha13,ha14,ha15⟩ := h1
  obtain ⟨hc0,hc1,hc2,hc3,hc4,hc5,hc6,hc7,hc8,hc9,hc10,hc11,hc12,hc13,hc14,hc15⟩ := h2
  have hd := congrArg String.data h
  simp only [uuidStr, byteHexChars, List.cons_append, List.nil_append] at hd
  simp only [List.cons.injEq, and_true] at hd
  obtain ⟨e0a,e0b,e1a,e1b,e2a,e2b,e3a,e3b,-,e4a,e4b,e5a,e5b,-,e6a,e6b,e7a,e7b,-,
    e8a,e8b,e9a,e9b,-,e10a,e10b,e11a,e11b,e12a,e12b,e13a,e13b,e14a,e14b,
    e15a,e15b⟩ := hd
  simp only [UuidBytes.mk.injEq]
  exact ⟨byte_of_hex_eq a0 c0 ha0 hc0 e0a e0b, byte_of_hex_eq a1 c1 ha1 hc1 e1a e1b,
    byte_of_hex_eq a2 c2 ha2 hc2 e2a e2b, byte_of_hex_eq a3 c3 ha3 hc3 e3a e3b,
    byte_of_hex_eq a4 c4 ha4 hc4 e4a e4b, byte_of_hex_eq a5 c5 ha5 hc5 e5a e5b,
    byte_of_hex_eq a6 c6 ha6 hc6 e6a e6b, byte_of_hex_eq a7 c7 ha7 hc7 e7a e7b,
    byte_of_hex_eq a8 c8 ha8 hc8 e8a e8b, byte_of_hex_eq a9 c9 ha9 hc9 e9a e9b,
    byte_of_hex_eq a10 c10 ha10 hc10 e10a e10b, byte_of_hex_eq a11 c11 ha11 hc11 e11a e11b,
    byte_of_hex_eq a12 c12 ha12 hc12 e12a e12b, byte_of_hex_eq a13 c13 ha13 hc13 e13a e13b,
    byte_of_hex_eq a14 c14 ha14 hc14 e14a e14b, byte_of_hex_eq a15 c15 ha15 hc15 e15a e15b⟩

set_option maxRecDepth 4096 in
/-- C8 counterexample: the state token does not carry 128 bits of entropy —
two distinct draws of the 16 random bytes (differing in the version nibble
of byte 6, one of the 6 bits `uuid.uuid4` overwrites) produce the *same*
state token, so the map from the 128 random bits to the token is not
injective. -/
theorem uuid4_entropy_counterexample :
    uuid4 ⟨0,0,0,0,0,0,0,0,0,0,0,0,0,0,0,0⟩ =
      uuid4 ⟨0,0,0,0,0,0,16,0,0,0,0,0,0,0,0,0⟩ ∧
    (⟨0,0,0,0,0,0,0,0,0,0,0,0,0,0,0,0⟩ : UuidBytes) ≠
      ⟨0,0,0,0,0,0,16,0,0,0,0,0,0,0,0,0⟩ := by
  exact ⟨by decide, by decide⟩

set_option maxHeartbeats 2000000 in
/-- C8 amended: the state token is derived from a cryptographically random
version-4 UUID carrying exactly 122 bits of entropy: `uuid.uuid4`
overwrites 6 of the 128 random bits (version nibble and variant bits), and
two draws of the 16 random bytes yield the same state token precisely when
they agree on the remaining 122 free bits. -/
theorem uuid4_entropy_122 (u1 u2 : UuidBytes) (h1 : u1.valid) (h2 : u2.valid) :
    uuid4 u1 = uuid4 u2 ↔ free122 u1 = free122 u2 := by
  obtain ⟨a0,a1,a2,a3,a4,a5,a6,a7,a8,a9,a10,a11,a12,a13,a14,a15⟩ := u1
  obtain ⟨c0,c1,c2,c3,c4,c5,c6,c7,c8,c9,c10,c11,c12,c13,c14,c15⟩ := u2
  obtain ⟨ha0,ha1,ha2,ha3,ha4,ha5,ha6,ha7,ha8,ha9,ha10,ha11,ha12,ha13,ha14,ha15⟩ := h1
  obtain ⟨hc0,hc1,hc2,hc3,hc4,hc5,hc6,hc7,hc8,hc9,hc10,hc11,hc12,hc13,hc14,hc15⟩ := h2
  have hA6 := and15or64 a6 ha6
  have hC6 := and15or64 c6 hc6
  have hA8 := and63or128 a8 ha8
  have hC8 := and63or128 c8 hc8
  constructor
  · intro h
    have hv1 : (uuid4Raw ⟨a0,a1,a2,a3,a4,a5,a6,a7,a8,a9,a10,a11,a12,a13,a14,a15⟩).valid := by
      simp only [uuid4Raw, UuidBytes.valid, hA6, hA8]
      refine ⟨ha0, ha1, ha2, ha3, ha4, ha5, by omega, ha7, by omega, ha9, ha10,
        ha11, ha12, ha13, ha14, ha15⟩
    have hv2 : (uuid4Raw ⟨c0,c1,c2,c3,c4,c5,c6,c7,c8,c9,c10,c11,c12,c13,c14,c15⟩).valid := by
      simp only [uuid4Raw, UuidBytes.valid, hC6, hC8]
      refine ⟨hc0, hc1, hc2, hc3, hc4, hc5, by omega, hc7, by omega, hc9, hc10,
        hc11, hc12, hc13, hc14, hc15⟩
    have heq := uuidStr_inj _ _ hv1 hv2 h
    simp only [uuid4Raw, UuidBytes.mk.injEq, hA6, hC6, hA8, hC8] at heq
    obtain ⟨g0,g1,g2,g3,g4,g5,g6,g7,g8,g9,g10,g11,g12,g13,g14,g15⟩ := heq
    simp only [free122, List.cons.injEq, and_true]
    refine ⟨g0, g1, g2, g3, g4, g5, by omega, g7, by omega, g9, g10, g11, g12,
      g13, g14, g15⟩
  · intro h
    simp only [free122, List.cons.injEq, and_true] at h
    obtain ⟨g0,g1,g2,g3,g4,g5,g6,g7,g8,g9,g10,g11,g12,g13,g14,g15⟩ := h
    have heq : uuid4Raw ⟨a0,a1,a2,a3,a4,a5,a6,a7,a8,a9,a10,a11,a12,a13,a14,a15⟩ =
        uuid4Raw ⟨c0,c1,c2,c3,c4,c5,c6,c7,c8,c9,c10,c11,c12,c13,c14,c15⟩ := by
      simp only [uuid4Raw, UuidBytes.mk.injEq, hA6, hC6, hA8, hC8]
      refine ⟨g0, g1, g2, g3, g4, g5, by omega, g7, by omega, g9, g10, g11, g12,
        g13, g14, g15⟩
    exact congrArg uuidStr heq

/-- Witness for C8's amended claim at concrete inputs: two byte-valid
draws agreeing only up to the overwritten version nibble. -/
theorem uuid4_entropy_122_witness :
    (⟨0,0,0,0,0,0,0,0,0,0,0,0,0,0,0,0⟩ : UuidBytes).valid ∧
    (⟨7,0,0,0,0,0,16,0,0,0,0,0,0,0,0,0⟩ : UuidBytes).valid ∧
    (uuid4 ⟨0,0,0,0,0,0,0,0,0,0,0,0,0,0,0,0⟩ =
        uuid4 ⟨7,0,0,0,0,0,16,0,0,0,0,0,0,0,0,0⟩ ↔
      free122 ⟨0,0,0,0,0,0,0,0,0,0,0,0,0,0,0,0⟩ =
        free122 ⟨7,0,0,0,0,0,16,0,0,0,0,0,0,0,0,0⟩) :=
  ⟨by simp only [UuidBytes.valid] ; omega, by simp only [UuidBytes.valid] ; omega,
    uuid4_entropy_122 ⟨0,0,0,0,0,0,0,0,0,0,0,0,0,0,0,0⟩
      ⟨7,0,0,0,0,0,16,0,0,0,0,0,0,0,0,0⟩ (by simp only [UuidBytes.valid] ; omega)
      (by simp only [UuidBytes.valid] ; omega)⟩

end Aurinko
